import Mathlib

/-!
Shallow embedding of `train_classifier.py`: reproducibility control
(`set_seed`), checkpoint store (`save_model` / `load_model`), evaluator
(`evaluate_model`), trainer (`train_model`), tester (`test_model`) and entry
point (`main`).

Modelling conventions:
* Images are an abstract type `α`; model parameters an abstract type `P`.
* The model forward pass is an abstract function `predict : P → α → List ℚ`
  producing one logit per class (floats are embedded as rationals); the
  effect of one `zero_grad` / `backward` / `optimizer.step` cycle on the
  parameters is an abstract function `step : P → Batch → P`, and the
  cross-entropy loss value of a batch is `lossOf : P → Batch → ℚ` (the loss
  value never influences control flow, it is only logged).
* The world state `Sys` holds the `saved_models` directory (an association
  list from file name to stored parameters, newest first, so that a later
  save of the same name shadows the earlier one exactly as a file overwrite
  does), the tensorboard sink, the ambient autograd flag (`torch.no_grad`
  toggles it), and observation traces: every evaluator call (with the model
  mode and autograd flag at that moment), every optimizer step, every
  checkpoint save, the validation accuracy of every epoch that triggered a
  save, and every data-loader construction (realized batch order plus the
  generator seed it was built with).
* Python exceptions (`AssertionError`, `FileNotFoundError`,
  `ZeroDivisionError`, `NotImplementedError`) become an `Except Err` result;
  every function also returns the world state it left behind.
* `DataLoader` is constructed without `shuffle=True`, hence it uses a
  sequential sampler: the batch order is the dataset order cut into
  consecutive chunks of `batch_size`; the generator argument is not consumed
  by a sequential sampler, but its seed is recorded in the trace.
* The RNG state (`numpy`, `torch`, `cuda`) and the cudnn backend flags live
  in `RngState`, threaded separately. Crucially, line 22 of the source sets
  the attribute `determinstic` (a misspelling): in Python this creates a
  fresh attribute on the `torch.backends.cudnn` module and leaves the real
  `deterministic` flag untouched, which the embedding renders by writing to
  an `extra` attribute list instead of the `deterministic` field.
-/

namespace TrainClassifier

/-- Python exception outcomes of the script. -/
inductive Err where
  | assertionError
  | fileNotFound
  | divisionByZero
  | notImplementedError
deriving DecidableEq, Repr

/-- Observable events of a run. -/
inductive Event where
  | evalCall (trainingMode : Bool) (gradEnabled : Bool)
  | optStep
  | saveCk (name : String)
deriving DecidableEq, Repr

/-- State of `torch.backends.cudnn`, together with the dynamically created
extra attributes a Python assignment to a misspelled name produces. -/
structure CudnnState where
  deterministicFlag : Bool
  benchmark : Bool
  extra : List (String × Bool)
deriving DecidableEq, Repr

/-- The random-number-generator state touched by `set_seed`. -/
structure RngState where
  npSeed : Option ℤ
  torchSeed : Option ℤ
  cudaSeed : Option ℤ
  cudaAllSeed : Option ℤ
  cudnn : CudnnState
deriving DecidableEq, Repr

/-- A collated batch: the image tensor and the target tensor. -/
abbrev Batch (α : Type) := List α × List ℕ

/-- World state: file system (`saved_models`), tensorboard sink, ambient
autograd flag, and the observation traces. -/
structure Sys (α P : Type) where
  files : List (String × P)
  dirExists : Bool
  gradEnabled : Bool
  tboard : List (String × ℚ)
  trace : List Event
  savedAccs : List ℚ
  loadersMade : List (List (Batch α) × ℕ)
deriving Repr

/-- Model object: parameters plus the train/eval mode flag
(`model.train()` / `model.eval()`). -/
structure MState (P : Type) where
  params : P
  training : Bool
deriving Repr

/-- `set_seed(seed)` (lines 13-23): seeds numpy, torch and (when available)
cuda; then executes `torch.backends.cudnn.determinstic = True` — the
misspelled attribute lands in `extra`, not in the real flag — and
`torch.backends.cudnn.benchmark = False`. -/
def set_seed (cuda : Bool) (seed : ℤ) (r : RngState) : RngState :=
  let r1 := { r with npSeed := some seed }
  let r2 := { r1 with torchSeed := some seed }
  let r3 := if cuda then { r2 with cudaSeed := some seed, cudaAllSeed := some seed } else r2
  let c1 := { r3.cudnn with extra := ("determinstic", true) :: r3.cudnn.extra }
  let c2 := { c1 with benchmark := false }
  { r3 with cudnn := c2 }

/-- `save_model(model, checkpoint_name)` (lines 25-37): create the
`saved_models` directory when absent, then write the parameters under the
given name (overwriting an existing file of that name). -/
def save_model {α P : Type} (p : P) (checkpoint_name : String) (s : Sys α P) : Sys α P :=
  let s1 := if s.dirExists then s else { s with dirExists := true }
  { s1 with
      files := (checkpoint_name, p) :: s1.files
      trace := Event.saveCk checkpoint_name :: s1.trace }

/-- First binding of `name` in the directory listing, i.e. the current
content of the file `saved_models/name`. -/
def lookupFile {P : Type} : List (String × P) → String → Option P
  | [], _ => none
  | (n, p) :: rest, name => if n = name then some p else lookupFile rest name

/-- `load_model(model, checkpoint_name)` (lines 40-52): read the parameters
stored under the name into the model; a missing file raises
`FileNotFoundError`. -/
def load_model {α P : Type} (checkpoint_name : String) (s : Sys α P) : Except Err P :=
  match lookupFile s.files checkpoint_name with
  | none => Except.error Err.fileNotFound
  | some q => Except.ok q

/-- Index of the first maximum, scanning tail `l` with current best value
`b` at index `bi`, next index `i`. -/
def argmaxGo : List ℚ → ℚ → ℕ → ℕ → ℕ
  | [], _, bi, _ => bi
  | y :: ys, b, bi, i => if b < y then argmaxGo ys y i (i + 1) else argmaxGo ys b bi (i + 1)

/-- `torch.argmax` over the class dimension of one logit vector. -/
def argmaxIdx : List ℚ → ℕ
  | [] => 0
  | x :: xs => argmaxGo xs x 0 1

/-- Consecutive chunks of size `bs` (fuel-driven; fuel `= l.length` suffices
whenever `bs ≥ 1`). -/
def chunkGo {γ : Type} (bs : ℕ) : ℕ → List γ → List (List γ)
  | 0, _ => []
  | _, [] => []
  | fuel + 1, l => l.take bs :: chunkGo bs fuel (l.drop bs)

/-- Batch list a sequential (non-shuffling) `DataLoader` realizes. -/
def chunkList {γ : Type} (bs : ℕ) (l : List γ) : List (List γ) :=
  chunkGo bs l.length l

/-- `DataLoader(dataset, batch_size=bs, generator=Generator().manual_seed(g))`
with the default `shuffle=False`: the dataset order cut into consecutive
batches, each collated into an image list and a target list; the generator
seed `g` is not consumed by the sequential sampler. -/
def dataLoader {α : Type} (ds : List (α × ℕ)) (bs : ℕ) (g : ℕ) : List (Batch α) :=
  let _ := g
  (chunkList bs ds).map (fun b => (b.map Prod.fst, b.map Prod.snd))

/-- Number of correct top-1 predictions in one batch
(`sum(predicted_labels == targets)`). -/
def batchCorrect {α P : Type} (predict : P → α → List ℚ) (p : P) (b : Batch α) : ℕ :=
  ((b.1.map (fun img => argmaxIdx (predict p img))).zip b.2).countP (fun pr => pr.1 == pr.2)

/-- Total example count of a loader (`number_examples` after the loop). -/
def loaderExamples {α : Type} (loader : List (Batch α)) : ℕ :=
  (loader.map (fun b => b.2.length)).sum

/-- Total correct count of a loader (`correct_predictions` after the loop). -/
def loaderCorrect {α P : Type} (predict : P → α → List ℚ) (p : P) (loader : List (Batch α)) : ℕ :=
  (loader.map (batchCorrect predict p)).sum

/-- `evaluate_model(model, data_loader, device)` (lines 154-189): accumulate
correct top-1 predictions and example counts over every batch, then return
their ratio; with zero examples the final `correct_predictions /
number_examples` is an integer division by zero (`ZeroDivisionError`). The
call is recorded in the trace together with the model mode and the ambient
autograd flag at that moment; the body never assigns to the model, so the
model object is handed back exactly as it was received. -/
def evaluate_model {α P : Type} (predict : P → α → List ℚ) (m : MState P)
    (loader : List (Batch α)) (s : Sys α P) : Except Err ℚ × MState P × Sys α P :=
  let s1 := { s with trace := Event.evalCall m.training s.gradEnabled :: s.trace }
  let total := loaderExamples loader
  if total = 0 then (Except.error Err.divisionByZero, m, s1)
  else (Except.ok ((loaderCorrect predict m.params loader : ℚ) / (total : ℚ)), m, s1)

/-- Inner batch loop of one training epoch (lines 103-128): per batch log the
loss to tensorboard, record one optimizer step, and update the parameters. -/
def runBatches {α P : Type} (lossOf : P → Batch α → ℚ) (step : P → Batch α → P) :
    List (Batch α) → P → Sys α P → P × Sys α P
  | [], p, s => (p, s)
  | b :: rest, p, s =>
      let s1 := { s with
        tboard := ("Loss/train", lossOf p b) :: s.tboard
        trace := Event.optStep :: s.trace }
      runBatches lossOf step rest (step p b) s1

/-- Body of one epoch of `train_model` (lines 99-143): train over all
batches, switch to eval mode, evaluate the train and valid loaders under
`torch.no_grad()`, save a checkpoint when the validation accuracy strictly
exceeds the running best (also noting that accuracy in `savedAccs`), log
both accuracies, leave the `no_grad` block and switch back to train mode.
A `ZeroDivisionError` from the evaluator propagates: the model is left in
eval mode and the `with` block restores the prior autograd flag on the way out. -/
def epochStep {α P : Type} (predict : P → α → List ℚ) (lossOf : P → Batch α → ℚ)
    (step : P → Batch α → P) (train_loader valid_loader : List (Batch α))
    (checkpoint_name : String) (m : MState P) (best : ℚ) (s : Sys α P) :
    Except Err Unit × MState P × ℚ × Sys α P :=
  let ps1 := runBatches lossOf step train_loader m.params s
  let m1 : MState P := { params := ps1.1, training := false }
  let s2 := { ps1.2 with gradEnabled := false }
  match evaluate_model predict m1 train_loader s2 with
  | (Except.error e, mE, s3) =>
      (Except.error e, mE, best, { s3 with gradEnabled := ps1.2.gradEnabled })
  | (Except.ok accT, mT, s3) =>
    match evaluate_model predict mT valid_loader s3 with
    | (Except.error e, mE, s4) =>
        (Except.error e, mE, best, { s4 with gradEnabled := ps1.2.gradEnabled })
    | (Except.ok accV, _, s4) =>
      let bs5 :=
        if accV > best then
          (accV, { (save_model ps1.1 checkpoint_name s4) with
                    savedAccs := s4.savedAccs ++ [accV] })
        else (best, s4)
      let s6 := { bs5.2 with
        tboard := ("Accuracy/validation", accV) :: ("Accuracy/train", accT) :: bs5.2.tboard }
      let s7 := { s6 with gradEnabled := ps1.2.gradEnabled }
      let m2 : MState P := { params := ps1.1, training := true }
      (Except.ok (), m2, bs5.1, s7)

/-- The epoch loop of `train_model` (lines 99-143), running the given number
of remaining epochs; an exception raised by an epoch body aborts the loop
and propagates. -/
def trainLoop {α P : Type} (predict : P → α → List ℚ) (lossOf : P → Batch α → ℚ)
    (step : P → Batch α → P) (train_loader valid_loader : List (Batch α))
    (checkpoint_name : String) :
    ℕ → MState P → ℚ → Sys α P → Except Err Unit × MState P × ℚ × Sys α P
  | 0, m, best, s => (Except.ok (), m, best, s)
  | n + 1, m, best, s =>
      match epochStep predict lossOf step train_loader valid_loader checkpoint_name m best s with
      | (Except.error e, m1, b1, s1) => (Except.error e, m1, b1, s1)
      | (Except.ok _, m1, b1, s1) =>
          trainLoop predict lossOf step train_loader valid_loader checkpoint_name n m1 b1 s1

/-- `train_model(model, lr, batch_size, epochs, checkpoint_name, device,
train_dataset, val_dataset)` (lines 55-151): assert `epochs > 0`, build the
two loaders with generators seeded with the constant 42, run the epoch loop
starting from a best validation accuracy of 0, and finally reload the best
checkpoint into the model (raising `FileNotFoundError` when the file does
not exist). The learning rate only parametrizes the optimizer, which is
abstracted into `step`. -/
def train_model {α P : Type} (predict : P → α → List ℚ) (lossOf : P → Batch α → ℚ)
    (step : P → Batch α → P) (m : MState P) (lr : ℚ) (batch_size : ℕ) (epochs : ℤ)
    (checkpoint_name : String) (train_dataset val_dataset : List (α × ℕ)) (s : Sys α P) :
    Except Err (MState P) × Sys α P :=
  let _ := lr
  if epochs ≤ 0 then (Except.error Err.assertionError, s)
  else
    let train_loader := dataLoader train_dataset batch_size 42
    let valid_loader := dataLoader val_dataset batch_size 42
    let s0 := { s with loadersMade := s.loadersMade ++ [(train_loader, 42), (valid_loader, 42)] }
    match trainLoop predict lossOf step train_loader valid_loader checkpoint_name
        epochs.toNat m 0 s0 with
    | (Except.error e, _, _, sF) => (Except.error e, sF)
    | (Except.ok _, mF, _, sF) =>
      match load_model checkpoint_name sF with
      | Except.error e => (Except.error e, sF)
      | Except.ok q => (Except.ok { mF with params := q }, sF)

/-- `test_model(model, batch_size, device, seed, test_dataset)` (lines
192-230): reseed via `set_seed`, switch the model to eval mode, build the
test loader (generator seeded with the constant 42) and evaluate it once
under `torch.no_grad()`, store the accuracy under the key `"accuracy"`,
switch the model back to train mode and return the result dictionary. -/
def test_model {α P : Type} (predict : P → α → List ℚ) (cuda : Bool) (m : MState P)
    (batch_size : ℕ) (seed : ℤ) (test_dataset : List (α × ℕ)) (s : Sys α P) (rng : RngState) :
    Except Err (List (String × ℚ)) × MState P × Sys α P × RngState :=
  let rng1 := set_seed cuda seed rng
  let m1 : MState P := { m with training := false }
  let s1 := { s with gradEnabled := false }
  let test_loader := dataLoader test_dataset batch_size 42
  let s2 := { s1 with loadersMade := s1.loadersMade ++ [(test_loader, 42)] }
  match evaluate_model predict m1 test_loader s2 with
  | (Except.error e, mE, s3) =>
      (Except.error e, mE, { s3 with gradEnabled := s.gradEnabled }, rng1)
  | (Except.ok acc, mT, s3) =>
      let s4 := { s3 with gradEnabled := s.gradEnabled }
      let m2 : MState P := { mT with training := true }
      (Except.ok [("accuracy", acc)], m2, s4, rng1)

/-- Command-line arguments of the script (lines 264-288). -/
structure Args where
  dataset : String
  labels : String
  lr : ℚ
  batch_size : ℕ
  epochs : ℤ
  seed : ℤ
  checkpoint_name : String

/-- `main(args)` (lines 232-261): seed, select the dataset (any name other
than "FFHQ-Aging" raises `NotImplementedError` before anything else
happens), acquire the pretrained model `p0` (hub models start in train
mode), then train when no checkpoint of the configured name exists and
otherwise load that checkpoint, and finish by calling the tester once and
returning its result dictionary. The three dataset splits returned by the
external `ffhq_utils` collaborator are the parameters `train_ds`,
`valid_ds`, `test_ds`. -/
def main {α P : Type} (predict : P → α → List ℚ) (lossOf : P → Batch α → ℚ)
    (step : P → Batch α → P) (cuda : Bool) (p0 : P)
    (train_ds valid_ds test_ds : List (α × ℕ)) (args : Args) (s : Sys α P) (rng : RngState) :
    Except Err (List (String × ℚ)) × Sys α P × RngState :=
  let rng1 := set_seed cuda args.seed rng
  if args.dataset = "FFHQ-Aging" then
    let m0 : MState P := { params := p0, training := true }
    if (lookupFile s.files args.checkpoint_name).isNone then
      match train_model predict lossOf step m0 args.lr args.batch_size args.epochs
          args.checkpoint_name train_ds valid_ds s with
      | (Except.error e, s2) => (Except.error e, s2, rng1)
      | (Except.ok m1, s2) =>
          match test_model predict cuda m1 args.batch_size args.seed test_ds s2 rng1 with
          | (rt, _, s3, rng2) => (rt, s3, rng2)
    else
      match load_model args.checkpoint_name s with
      | Except.error e => (Except.error e, s, rng1)
      | Except.ok q =>
          match test_model predict cuda { params := q, training := true }
              args.batch_size args.seed test_ds s rng1 with
          | (rt, _, s3, rng2) => (rt, s3, rng2)
  else (Except.error Err.notImplementedError, s, rng1)

/-- Is this event an evaluator call? -/
def isEvalCall : Event → Bool
  | Event.evalCall _ _ => true
  | _ => false

/-- Is this event an optimizer step? -/
def isOptStep : Event → Bool
  | Event.optStep => true
  | _ => false

/-- Is this event a checkpoint save? -/
def isSaveCk : Event → Bool
  | Event.saveCk _ => true
  | _ => false

/-- Is this event an evaluator call made outside of eval mode, or with
autograd still enabled? -/
def isBadEval : Event → Bool
  | Event.evalCall tm g => tm || g
  | _ => false

/-- Number of evaluator calls recorded in a trace. -/
def countEvals (tr : List Event) : ℕ := tr.countP isEvalCall

/-- Number of optimizer steps recorded in a trace. -/
def countOpt (tr : List Event) : ℕ := tr.countP isOptStep

/-- Number of checkpoint saves recorded in a trace. -/
def countSaves (tr : List Event) : ℕ := tr.countP isSaveCk

/-- Number of evaluator calls made outside eval mode or with autograd on. -/
def badEvals (tr : List Event) : ℕ := tr.countP isBadEval

/-- The world state after `train_model` has constructed its two loaders
(both with generator seed 42), just before the epoch loop starts. -/
def trainInitSys {α P : Type} (tds vds : List (α × ℕ)) (batch_size : ℕ) (s : Sys α P) :
    Sys α P :=
  { s with loadersMade := s.loadersMade ++
      [(dataLoader tds batch_size 42, 42), (dataLoader vds batch_size 42, 42)] }

/-! Concrete instantiations used to replay synthetic runs. -/

/-- Synthetic model: number of validation examples classified correctly when
the parameter value is `p` (the parameter counts completed training batches;
one training batch per epoch, so after epoch `e` it equals `e + 1`). -/
def exCorr (p : ℕ) : ℕ := [5, 4, 6, 6, 7].getD (p - 1) 0

/-- Synthetic forward pass: images `0, …, 9` all carry target label `0`;
image `i` receives logits `[1, 0]` (argmax `0`, correct) exactly when
`i < exCorr p`, else `[0, 1]` (argmax `1`, wrong). -/
def exPredict (p : ℕ) (img : ℕ) : List ℚ := if img < exCorr p then [1, 0] else [0, 1]

/-- Synthetic forward pass that never matches the target label `0`. -/
def zeroPredict (_p : ℕ) (_img : ℕ) : List ℚ := [0, 1]

/-- Synthetic optimizer step: counts processed training batches. -/
def exStep (p : ℕ) (_b : Batch ℕ) : ℕ := p + 1

/-- Synthetic loss value (never influences control flow). -/
def exLoss (_p : ℕ) (_b : Batch ℕ) : ℚ := 0

/-- Synthetic training split: one example. -/
def exTrainDs : List (ℕ × ℕ) := [(0, 0)]

/-- Synthetic validation split: ten examples, all with label `0`. -/
def exValidDs : List (ℕ × ℕ) := (List.range 10).map (fun i => (i, 0))

/-- Fresh world state: no files, no directory, autograd on, empty sinks. -/
def exSys : Sys ℕ ℕ :=
  { files := [], dirExists := false, gradEnabled := true, tboard := [],
    trace := [], savedAccs := [], loadersMade := [] }

/-- RNG state before the process ever seeds anything (PyTorch defaults:
both cudnn flags off, no extra attributes). -/
def exRng : RngState :=
  { npSeed := none, torchSeed := none, cudaSeed := none, cudaAllSeed := none,
    cudnn := { deterministicFlag := false, benchmark := false, extra := [] } }

/-- Replay of the synthetic per-epoch validation accuracies
`[0.5, 0.4, 0.6, 0.6, 0.7]`: five epochs, batch size 10, fresh store. -/
def exRun : Except Err (MState ℕ) × Sys ℕ ℕ :=
  train_model exPredict exLoss exStep { params := 0, training := true } 1 10 5 "ck"
    exTrainDs exValidDs exSys

/-- A run whose validation accuracy is 0 every epoch: no save ever happens. -/
def exRunNoSave : Except Err (MState ℕ) × Sys ℕ ℕ :=
  train_model zeroPredict exLoss exStep { params := 0, training := true } 1 10 3 "ck"
    exTrainDs exValidDs exSys

/-- Default command-line arguments with the synthetic checkpoint name. -/
def exArgs : Args :=
  { dataset := "FFHQ-Aging", labels := "gender", lr := 1 / 100, batch_size := 10,
    epochs := 5, seed := 42, checkpoint_name := "ck" }

/-- Full entry-point run on the synthetic data (training branch). -/
def exMainRun : Except Err (List (String × ℚ)) × Sys ℕ ℕ × RngState :=
  main exPredict exLoss exStep false 0 exTrainDs exValidDs exValidDs exArgs exSys exRng


lemma save_model_eq {α P : Type} (p : P) (name : String) (s : Sys α P) :
    save_model p name s =
      { s with files := (name, p) :: s.files, dirExists := true,
               trace := Event.saveCk name :: s.trace } := by
  unfold save_model
  cases h : s.dirExists <;> simp [h]

lemma evaluate_model_eq {α P : Type} (predict : P → α → List ℚ) (m : MState P)
    (loader : List (Batch α)) (s : Sys α P) :
    evaluate_model predict m loader s =
      ((if loaderExamples loader = 0 then Except.error Err.divisionByZero
        else Except.ok ((loaderCorrect predict m.params loader : ℚ) / (loaderExamples loader : ℚ))),
       m,
       { s with trace := Event.evalCall m.training s.gradEnabled :: s.trace }) := by
  unfold evaluate_model
  split <;> rename_i h <;> simp [h]

lemma runBatches_sys {α P : Type} (lossOf : P → Batch α → ℚ) (step : P → Batch α → P) :
    ∀ (l : List (Batch α)) (p : P) (s : Sys α P),
      (runBatches lossOf step l p s).2.files = s.files ∧
      (runBatches lossOf step l p s).2.dirExists = s.dirExists ∧
      (runBatches lossOf step l p s).2.gradEnabled = s.gradEnabled ∧
      (runBatches lossOf step l p s).2.savedAccs = s.savedAccs ∧
      (runBatches lossOf step l p s).2.loadersMade = s.loadersMade ∧
      (runBatches lossOf step l p s).2.trace =
        List.replicate l.length Event.optStep ++ s.trace
  | [], p, s => by simp [runBatches]
  | b :: rest, p, s => by
      have ih := runBatches_sys lossOf step rest (step p b)
        { s with tboard := ("Loss/train", lossOf p b) :: s.tboard
                 trace := Event.optStep :: s.trace }
      simp only [runBatches] at ih ⊢
      refine ⟨ih.1, ih.2.1, ih.2.2.1, ih.2.2.2.1, ih.2.2.2.2.1, ?_⟩
      rw [ih.2.2.2.2.2]
      simp [List.replicate_succ', List.append_assoc]

lemma countP_replicate (f : Event → Bool) (a : Event) (n : ℕ) :
    List.countP f (List.replicate n a) = if f a then n else 0 := by
  induction n with
  | zero => simp
  | succ k ih => cases h : f a <;> simp [List.replicate_succ, List.countP_cons, h, ih]

lemma epochStep_eq {α P : Type} (predict : P → α → List ℚ) (lossOf : P → Batch α → ℚ)
    (step : P → Batch α → P) (tl vl : List (Batch α)) (name : String)
    (m : MState P) (best : ℚ) (s : Sys α P)
    (hTl : loaderExamples tl ≠ 0) (hVl : loaderExamples vl ≠ 0) :
    epochStep predict lossOf step tl vl name m best s =
      (let p1 := (runBatches lossOf step tl m.params s).1
       let sR := (runBatches lossOf step tl m.params s).2
       let accT := ((loaderCorrect predict p1 tl : ℚ) / (loaderExamples tl : ℚ))
       let accV := ((loaderCorrect predict p1 vl : ℚ) / (loaderExamples vl : ℚ))
       if accV > best then
         (Except.ok (), { params := p1, training := true }, accV,
          { files := (name, p1) :: sR.files
            dirExists := true
            gradEnabled := sR.gradEnabled
            tboard := ("Accuracy/validation", accV) :: ("Accuracy/train", accT) :: sR.tboard
            trace := Event.saveCk name :: Event.evalCall false false ::
                     Event.evalCall false false :: sR.trace
            savedAccs := sR.savedAccs ++ [accV]
            loadersMade := sR.loadersMade })
       else
         (Except.ok (), { params := p1, training := true }, best,
          { sR with
            tboard := ("Accuracy/validation", accV) :: ("Accuracy/train", accT) :: sR.tboard
            trace := Event.evalCall false false :: Event.evalCall false false :: sR.trace })) := by
  unfold epochStep
  simp only [evaluate_model_eq, if_neg hTl, if_neg hVl]
  split <;> rename_i hsave <;> simp [save_model_eq, hsave]

lemma epochStep_eq_errT {α P : Type} (predict : P → α → List ℚ) (lossOf : P → Batch α → ℚ)
    (step : P → Batch α → P) (tl vl : List (Batch α)) (name : String)
    (m : MState P) (best : ℚ) (s : Sys α P)
    (hTl : loaderExamples tl = 0) :
    epochStep predict lossOf step tl vl name m best s =
      (Except.error Err.divisionByZero,
       { params := (runBatches lossOf step tl m.params s).1, training := false }, best,
       { (runBatches lossOf step tl m.params s).2 with
         trace := Event.evalCall false false :: (runBatches lossOf step tl m.params s).2.trace }) := by
  unfold epochStep
  simp [evaluate_model_eq, if_pos hTl]

lemma epochStep_eq_errV {α P : Type} (predict : P → α → List ℚ) (lossOf : P → Batch α → ℚ)
    (step : P → Batch α → P) (tl vl : List (Batch α)) (name : String)
    (m : MState P) (best : ℚ) (s : Sys α P)
    (hTl : loaderExamples tl ≠ 0) (hVl : loaderExamples vl = 0) :
    epochStep predict lossOf step tl vl name m best s =
      (Except.error Err.divisionByZero,
       { params := (runBatches lossOf step tl m.params s).1, training := false }, best,
       { (runBatches lossOf step tl m.params s).2 with
         trace := Event.evalCall false false :: Event.evalCall false false ::
                  (runBatches lossOf step tl m.params s).2.trace }) := by
  unfold epochStep
  simp [evaluate_model_eq, if_neg hTl, if_pos hVl]

lemma chain_lt_snoc {l : List ℚ} {b x : ℚ} (hl : List.Chain' (· < ·) l)
    (hb : ∀ a ∈ l, a ≤ b) (hx : b < x) : List.Chain' (· < ·) (l ++ [x]) := by
  refine List.chain'_append.2 ⟨hl, List.chain'_singleton x, ?_⟩
  intro y hy z hz
  simp only [List.head?_cons, Option.mem_def, Option.some.injEq] at hz
  subst hz
  obtain ⟨hne, hy2⟩ := List.mem_getLast?_eq_getLast hy
  exact lt_of_le_of_lt (hb _ (hy2 ▸ List.getLast_mem hne)) hx

lemma trainLoop_stats {α P : Type} (predict : P → α → List ℚ) (lossOf : P → Batch α → ℚ)
    (step : P → Batch α → P) (tl vl : List (Batch α)) (name : String)
    (hTl : loaderExamples tl ≠ 0) (hVl : loaderExamples vl ≠ 0) :
    ∀ (n : ℕ) (m : MState P) (best : ℚ) (s : Sys α P),
      (trainLoop predict lossOf step tl vl name n m best s).1 = Except.ok () ∧
      countEvals (trainLoop predict lossOf step tl vl name n m best s).2.2.2.trace =
        countEvals s.trace + 2 * n ∧
      countOpt (trainLoop predict lossOf step tl vl name n m best s).2.2.2.trace =
        countOpt s.trace + n * tl.length ∧
      badEvals (trainLoop predict lossOf step tl vl name n m best s).2.2.2.trace =
        badEvals s.trace ∧
      (1 ≤ n → (trainLoop predict lossOf step tl vl name n m best s).2.1.training = true) := by
  intro n
  induction n with
  | zero => intro m best s; simp [trainLoop]
  | succ k ih =>
    intro m best s
    obtain ⟨hf, hd, hg, hsa, hlm, htr⟩ := runBatches_sys lossOf step tl m.params s
    simp only [trainLoop, epochStep_eq predict lossOf step tl vl name m best s hTl hVl]
    split <;> rename_i hsave
    · split at hsave <;> simp at hsave
    · split at hsave
      · simp only [Prod.mk.injEq] at hsave
        obtain ⟨-, hm1, hb1, hs1⟩ := hsave
        subst hm1; subst hb1; subst hs1
        refine ⟨(ih _ _ _).1, ?_, ?_, ?_, ?_⟩
        · rw [(ih _ _ _).2.1]
          simp [countEvals, htr, List.countP_cons, List.countP_append, countP_replicate,
            isEvalCall]
          omega
        · rw [(ih _ _ _).2.2.1]
          simp [countOpt, htr, List.countP_cons, List.countP_append, countP_replicate,
            isOptStep]
          ring
        · rw [(ih _ _ _).2.2.2.1]
          simp [badEvals, htr, List.countP_cons, List.countP_append, countP_replicate,
            isBadEval]
        · intro _
          cases k with
          | zero => simp [trainLoop]
          | succ k2 => exact (ih _ _ _).2.2.2.2 (Nat.succ_le_succ (Nat.zero_le k2))
      · simp only [Prod.mk.injEq] at hsave
        obtain ⟨-, hm1, hb1, hs1⟩ := hsave
        subst hm1; subst hb1; subst hs1
        refine ⟨(ih _ _ _).1, ?_, ?_, ?_, ?_⟩
        · rw [(ih _ _ _).2.1]
          simp [countEvals, htr, List.countP_cons, List.countP_append, countP_replicate,
            isEvalCall]
          omega
        · rw [(ih _ _ _).2.2.1]
          simp [countOpt, htr, List.countP_cons, List.countP_append, countP_replicate,
            isOptStep]
          ring
        · rw [(ih _ _ _).2.2.2.1]
          simp [badEvals, htr, List.countP_cons, List.countP_append, countP_replicate,
            isBadEval]
        · intro _
          cases k with
          | zero => simp [trainLoop]
          | succ k2 => exact (ih _ _ _).2.2.2.2 (Nat.succ_le_succ (Nat.zero_le k2))

lemma trainLoop_saved {α P : Type} (predict : P → α → List ℚ) (lossOf : P → Batch α → ℚ)
    (step : P → Batch α → P) (tl vl : List (Batch α)) (name : String) :
    ∀ (n : ℕ) (m : MState P) (best : ℚ) (s : Sys α P),
      List.Chain' (· < ·) s.savedAccs → (∀ a ∈ s.savedAccs, a ≤ best) →
      List.Chain' (· < ·) (trainLoop predict lossOf step tl vl name n m best s).2.2.2.savedAccs ∧
      (∀ a ∈ (trainLoop predict lossOf step tl vl name n m best s).2.2.2.savedAccs,
        a ≤ (trainLoop predict lossOf step tl vl name n m best s).2.2.1) := by
  intro n
  induction n with
  | zero => intro m best s h1 h2; simpa [trainLoop] using ⟨h1, h2⟩
  | succ k ih =>
    intro m best s h1 h2
    obtain ⟨hf, hd, hg, hsa, hlm, htr⟩ := runBatches_sys lossOf step tl m.params s
    by_cases hTl0 : loaderExamples tl = 0
    · simp only [trainLoop, epochStep_eq_errT predict lossOf step tl vl name m best s hTl0]
      exact ⟨by simpa [hsa] using h1, by simpa [hsa] using h2⟩
    · by_cases hVl0 : loaderExamples vl = 0
      · simp only [trainLoop, epochStep_eq_errV predict lossOf step tl vl name m best s hTl0 hVl0]
        exact ⟨by simpa [hsa] using h1, by simpa [hsa] using h2⟩
      · simp only [trainLoop, epochStep_eq predict lossOf step tl vl name m best s hTl0 hVl0]
        split <;> rename_i hsave
        · split at hsave <;> simp at hsave
        · split at hsave
          · rename_i hgt
            simp only [Prod.mk.injEq] at hsave
            obtain ⟨-, hm1, hb1, hs1⟩ := hsave
            subst hm1; subst hb1; subst hs1
            apply ih
            · simp only [hsa]
              exact chain_lt_snoc h1 h2 hgt
            · intro a ha
              simp only [hsa, List.mem_append, List.mem_singleton] at ha
              rcases ha with ha | ha
              · exact le_of_lt (lt_of_le_of_lt (h2 a ha) hgt)
              · exact le_of_eq ha
          · rename_i hgt
            simp only [Prod.mk.injEq] at hsave
            obtain ⟨-, hm1, hb1, hs1⟩ := hsave
            subst hm1; subst hb1; subst hs1
            apply ih
            · simpa [hsa] using h1
            · simpa [hsa] using h2

lemma trainLoop_files {α P : Type} (predict : P → α → List ℚ) (lossOf : P → Batch α → ℚ)
    (step : P → Batch α → P) (tl vl : List (Batch α)) (name : String) :
    ∀ (n : ℕ) (m : MState P) (best : ℚ) (s : Sys α P),
      ((lookupFile s.files name).isSome ↔ s.savedAccs ≠ []) →
      ((lookupFile (trainLoop predict lossOf step tl vl name n m best s).2.2.2.files
          name).isSome ↔
        (trainLoop predict lossOf step tl vl name n m best s).2.2.2.savedAccs ≠ []) := by
  intro n
  induction n with
  | zero => intro m best s h; simpa [trainLoop] using h
  | succ k ih =>
    intro m best s h
    obtain ⟨hf, hd, hg, hsa, hlm, htr⟩ := runBatches_sys lossOf step tl m.params s
    by_cases hTl0 : loaderExamples tl = 0
    · simp only [trainLoop, epochStep_eq_errT predict lossOf step tl vl name m best s hTl0]
      simpa [hsa, hf] using h
    · by_cases hVl0 : loaderExamples vl = 0
      · simp only [trainLoop, epochStep_eq_errV predict lossOf step tl vl name m best s hTl0 hVl0]
        simpa [hsa, hf] using h
      · simp only [trainLoop, epochStep_eq predict lossOf step tl vl name m best s hTl0 hVl0]
        split <;> rename_i hsave
        · split at hsave <;> simp at hsave
        · split at hsave
          · simp only [Prod.mk.injEq] at hsave
            obtain ⟨-, hm1, hb1, hs1⟩ := hsave
            subst hm1; subst hb1; subst hs1
            apply ih
            simp [lookupFile]
          · simp only [Prod.mk.injEq] at hsave
            obtain ⟨-, hm1, hb1, hs1⟩ := hsave
            subst hm1; subst hb1; subst hs1
            apply ih
            simpa [hsa, hf] using h

lemma trainLoop_frame {α P : Type} (predict : P → α → List ℚ) (lossOf : P → Batch α → ℚ)
    (step : P → Batch α → P) (tl vl : List (Batch α)) (name : String) :
    ∀ (n : ℕ) (m : MState P) (best : ℚ) (s : Sys α P),
      badEvals (trainLoop predict lossOf step tl vl name n m best s).2.2.2.trace =
        badEvals s.trace ∧
      (trainLoop predict lossOf step tl vl name n m best s).2.2.2.loadersMade =
        s.loadersMade := by
  intro n
  induction n with
  | zero => intro m best s; simp [trainLoop]
  | succ k ih =>
    intro m best s
    obtain ⟨hf, hd, hg, hsa, hlm, htr⟩ := runBatches_sys lossOf step tl m.params s
    by_cases hTl0 : loaderExamples tl = 0
    · simp only [trainLoop, epochStep_eq_errT predict lossOf step tl vl name m best s hTl0]
      constructor
      · simp [badEvals, htr, List.countP_cons, List.countP_append, countP_replicate, isBadEval]
      · simpa using hlm
    · by_cases hVl0 : loaderExamples vl = 0
      · simp only [trainLoop, epochStep_eq_errV predict lossOf step tl vl name m best s hTl0 hVl0]
        constructor
        · simp [badEvals, htr, List.countP_cons, List.countP_append, countP_replicate, isBadEval]
        · simpa using hlm
      · simp only [trainLoop, epochStep_eq predict lossOf step tl vl name m best s hTl0 hVl0]
        split <;> rename_i hsave
        · split at hsave <;> simp at hsave
        · split at hsave
          · simp only [Prod.mk.injEq] at hsave
            obtain ⟨-, hm1, hb1, hs1⟩ := hsave
            subst hm1; subst hb1; subst hs1
            constructor
            · rw [(ih _ _ _).1]
              simp [badEvals, htr, List.countP_cons, List.countP_append, countP_replicate,
                isBadEval]
            · rw [(ih _ _ _).2]
              simpa using hlm
          · simp only [Prod.mk.injEq] at hsave
            obtain ⟨-, hm1, hb1, hs1⟩ := hsave
            subst hm1; subst hb1; subst hs1
            constructor
            · rw [(ih _ _ _).1]
              simp [badEvals, htr, List.countP_cons, List.countP_append, countP_replicate,
                isBadEval]
            · rw [(ih _ _ _).2]
              simpa using hlm

lemma chunkGo_length_sum {γ : Type} (bs : ℕ) (hbs : 1 ≤ bs) :
    ∀ (fuel : ℕ) (l : List γ), l.length ≤ fuel →
      ((chunkGo bs fuel l).map List.length).sum = l.length := by
  intro fuel
  induction fuel with
  | zero =>
    intro l hl
    have : l = [] := List.eq_nil_of_length_eq_zero (Nat.le_zero.1 hl)
    subst this
    simp [chunkGo]
  | succ k ih =>
    intro l hl
    cases l with
    | nil => simp [chunkGo]
    | cons x xs =>
      have hdrop : ((x :: xs).drop bs).length ≤ k := by
        simp only [List.length_drop, List.length_cons]
        simp only [List.length_cons] at hl
        omega
      simp only [chunkGo, List.map_cons, List.sum_cons, ih _ hdrop]
      simp only [List.length_take, List.length_drop]
      simp only [List.length_cons]
      omega

lemma loaderExamples_dataLoader {α : Type} (ds : List (α × ℕ)) (bs g : ℕ) (hbs : 1 ≤ bs) :
    loaderExamples (dataLoader ds bs g) = ds.length := by
  unfold loaderExamples dataLoader chunkList
  rw [List.map_map]
  have : ((fun b => b.2.length) ∘ fun b : List (α × ℕ) => (b.map Prod.fst, b.map Prod.snd)) =
      List.length := by
    funext b
    simp
  rw [this]
  exact chunkGo_length_sum bs hbs ds.length ds (le_refl _)

lemma dataLoader_length_pos {α : Type} (ds : List (α × ℕ)) (bs g : ℕ) (hds : ds ≠ []) :
    1 ≤ (dataLoader ds bs g).length := by
  unfold dataLoader chunkList
  cases ds with
  | nil => exact absurd rfl hds
  | cons x xs => simp [chunkGo]

lemma batchCorrect_le {α P : Type} (predict : P → α → List ℚ) (p : P) (b : Batch α) :
    batchCorrect predict p b ≤ b.2.length := by
  unfold batchCorrect
  refine le_trans (List.countP_le_length _) ?_
  simp [List.length_zip]

lemma loaderCorrect_le {α P : Type} (predict : P → α → List ℚ) (p : P) :
    ∀ (loader : List (Batch α)), loaderCorrect predict p loader ≤ loaderExamples loader := by
  intro loader
  induction loader with
  | nil => simp [loaderCorrect, loaderExamples]
  | cons b rest ih =>
    simp only [loaderCorrect, loaderExamples, List.map_cons, List.sum_cons] at ih ⊢
    exact Nat.add_le_add (batchCorrect_le predict p b) ih

lemma test_model_eq {α P : Type} (predict : P → α → List ℚ) (cuda : Bool) (m : MState P)
    (batch_size : ℕ) (seed : ℤ) (test_dataset : List (α × ℕ)) (s : Sys α P) (rng : RngState) :
    test_model predict cuda m batch_size seed test_dataset s rng =
      ((if loaderExamples (dataLoader test_dataset batch_size 42) = 0 then
          Except.error Err.divisionByZero
        else
          Except.ok [("accuracy",
            (loaderCorrect predict m.params (dataLoader test_dataset batch_size 42) : ℚ) /
              (loaderExamples (dataLoader test_dataset batch_size 42) : ℚ))]),
       (if loaderExamples (dataLoader test_dataset batch_size 42) = 0 then
          { params := m.params, training := false }
        else { params := m.params, training := true }),
       { s with
          loadersMade := s.loadersMade ++ [(dataLoader test_dataset batch_size 42, 42)]
          trace := Event.evalCall false false :: s.trace },
       set_seed cuda seed rng) := by
  unfold test_model
  simp only [evaluate_model_eq]
  split <;> rename_i h
  · split at h <;> rename_i hc
    · simp only [Prod.mk.injEq, Except.error.injEq] at h
      obtain ⟨he, hm, hs⟩ := h
      subst he; subst hm; subst hs
      simp [hc]
    · simp at h
  · split at h <;> rename_i hc
    · simp at h
    · simp only [Prod.mk.injEq, Except.ok.injEq] at h
      obtain ⟨he, hm, hs⟩ := h
      subst he; subst hm; subst hs
      simp [hc]

lemma train_model_eq {α P : Type} (predict : P → α → List ℚ) (lossOf : P → Batch α → ℚ)
    (step : P → Batch α → P) (m : MState P) (lr : ℚ) (batch_size : ℕ) (epochs : ℤ)
    (checkpoint_name : String) (tds vds : List (α × ℕ)) (s : Sys α P)
    (h0 : ¬ epochs ≤ 0) :
    train_model predict lossOf step m lr batch_size epochs checkpoint_name tds vds s =
      (match trainLoop predict lossOf step (dataLoader tds batch_size 42)
          (dataLoader vds batch_size 42) checkpoint_name epochs.toNat m 0
          (trainInitSys tds vds batch_size s) with
       | (Except.error e, _, _, sF) => (Except.error e, sF)
       | (Except.ok _, mF, _, sF) =>
         match load_model checkpoint_name sF with
         | Except.error e => (Except.error e, sF)
         | Except.ok q => (Except.ok { mF with params := q }, sF)) := by
  unfold train_model trainInitSys
  rw [if_neg h0]

lemma train_model_snd {α P : Type} (predict : P → α → List ℚ) (lossOf : P → Batch α → ℚ)
    (step : P → Batch α → P) (m : MState P) (lr : ℚ) (batch_size : ℕ) (epochs : ℤ)
    (checkpoint_name : String) (tds vds : List (α × ℕ)) (s : Sys α P)
    (h0 : ¬ epochs ≤ 0) :
    (train_model predict lossOf step m lr batch_size epochs checkpoint_name tds vds s).2 =
      (trainLoop predict lossOf step (dataLoader tds batch_size 42)
        (dataLoader vds batch_size 42) checkpoint_name epochs.toNat m 0
        (trainInitSys tds vds batch_size s)).2.2.2 := by
  rw [train_model_eq predict lossOf step m lr batch_size epochs checkpoint_name tds vds s h0]
  rcases trainLoop predict lossOf step (dataLoader tds batch_size 42)
      (dataLoader vds batch_size 42) checkpoint_name epochs.toNat m 0
      (trainInitSys tds vds batch_size s) with ⟨r, mF, bF, sF⟩
  cases r with
  | error e => rfl
  | ok u => cases hL : load_model checkpoint_name sF <;> simp [hL]

lemma train_model_assert {α P : Type} (predict : P → α → List ℚ) (lossOf : P → Batch α → ℚ)
    (step : P → Batch α → P) (m : MState P) (lr : ℚ) (batch_size : ℕ) (epochs : ℤ)
    (checkpoint_name : String) (tds vds : List (α × ℕ)) (s : Sys α P)
    (h0 : epochs ≤ 0) :
    train_model predict lossOf step m lr batch_size epochs checkpoint_name tds vds s =
      (Except.error Err.assertionError, s) := by
  unfold train_model
  rw [if_pos h0]

lemma main_notimpl {α P : Type} (predict : P → α → List ℚ) (lossOf : P → Batch α → ℚ)
    (step : P → Batch α → P) (cuda : Bool) (p0 : P) (tds vds teds : List (α × ℕ))
    (args : Args) (s : Sys α P) (rng : RngState)
    (h : ¬ args.dataset = "FFHQ-Aging") :
    main predict lossOf step cuda p0 tds vds teds args s rng =
      (Except.error Err.notImplementedError, s, set_seed cuda args.seed rng) := by
  unfold main
  rw [if_neg h]

lemma loaderExamples_ne_zero {α : Type} (ds : List (α × ℕ)) (bs : ℕ) (g : ℕ)
    (hbs : 1 ≤ bs) (hds : ds ≠ []) : loaderExamples (dataLoader ds bs g) ≠ 0 := by
  rw [loaderExamples_dataLoader ds bs g hbs]
  intro hc
  exact hds (List.eq_nil_of_length_eq_zero hc)

/-- C3: for every model and loader with at least one example, `evaluate_model`
returns the ratio of correct top-1 predictions to total examples, a value in
[0, 1]; it fails with a division-by-zero condition exactly when the loader
yields zero examples. -/
theorem C3_evaluate_ratio :
    ∀ (α P : Type) (predict : P → α → List ℚ) (m : MState P) (loader : List (Batch α))
      (s : Sys α P),
      ((evaluate_model predict m loader s).1 = Except.error Err.divisionByZero ↔
        loaderExamples loader = 0) ∧
      (loaderExamples loader ≠ 0 →
        (evaluate_model predict m loader s).1 =
          Except.ok ((loaderCorrect predict m.params loader : ℚ) /
            (loaderExamples loader : ℚ)) ∧
        0 ≤ ((loaderCorrect predict m.params loader : ℚ) / (loaderExamples loader : ℚ)) ∧
        ((loaderCorrect predict m.params loader : ℚ) / (loaderExamples loader : ℚ)) ≤ 1) := by
  intro α P predict m loader s
  constructor
  · by_cases h : loaderExamples loader = 0 <;> simp [evaluate_model_eq, h]
  · intro h
    refine ⟨by simp [evaluate_model_eq, h], ?_, ?_⟩
    · exact div_nonneg (Nat.cast_nonneg _) (Nat.cast_nonneg _)
    · have hb : (0 : ℚ) < (loaderExamples loader : ℚ) :=
        Nat.cast_pos.2 (Nat.pos_of_ne_zero h)
      exact (div_le_one hb).2 (Nat.cast_le.2 (loaderCorrect_le predict m.params loader))

/-- C3 witness: a loader with a single example (classified correctly by the
synthetic model at parameter value 1). -/
theorem C3_witness :
    loaderExamples [([0], [0])] ≠ 0 ∧
    ((evaluate_model exPredict { params := 1, training := false } [([0], [0])] exSys).1 =
      Except.ok ((loaderCorrect exPredict (MState.params { params := 1, training := false })
          [([0], [0])] : ℚ) / (loaderExamples [([0], [0])] : ℚ)) ∧
     0 ≤ ((loaderCorrect exPredict (MState.params { params := 1, training := false })
          [([0], [0])] : ℚ) / (loaderExamples [([0], [0])] : ℚ)) ∧
     ((loaderCorrect exPredict (MState.params { params := 1, training := false })
          [([0], [0])] : ℚ) / (loaderExamples [([0], [0])] : ℚ)) ≤ 1) :=
  ⟨by decide,
   (C3_evaluate_ratio ℕ ℕ exPredict { params := 1, training := false } [([0], [0])] exSys).2
     (by decide)⟩

/-- C4: `set_seed` seeds numpy, torch and both cuda generators and disables
cudnn benchmark mode, but — because line 22 assigns to the misspelled
attribute `determinstic` — it never enables the cudnn deterministic-execution
mode: the real flag keeps its previous value (false by default) for every
seed, while a stray `determinstic` attribute is created. -/
theorem C4_seed_typo :
    (set_seed true 42 exRng).npSeed = some 42 ∧
    (set_seed true 42 exRng).torchSeed = some 42 ∧
    (set_seed true 42 exRng).cudaSeed = some 42 ∧
    (set_seed true 42 exRng).cudaAllSeed = some 42 ∧
    (set_seed true 42 exRng).cudnn.benchmark = false ∧
    (set_seed true 42 exRng).cudnn.extra = [("determinstic", true)] ∧
    (set_seed true 42 exRng).cudnn.deterministicFlag = false ∧
    (∀ (cuda : Bool) (seed : ℤ) (r : RngState),
      (set_seed cuda seed r).cudnn.deterministicFlag = r.cudnn.deterministicFlag) := by
  refine ⟨rfl, rfl, rfl, rfl, rfl, rfl, rfl, ?_⟩
  intro cuda seed r
  cases cuda <;> simp [set_seed]

/-- C5: the tester first reseeds with the given seed, evaluates the test
split exactly once in eval mode with autograd off (the single new trace
event), returns the one-entry dictionary mapping "accuracy" to the
evaluator's result, and hands the model back in training mode with its
parameters untouched. -/
theorem C5_tester :
    ∀ (α P : Type) (predict : P → α → List ℚ) (cuda : Bool) (m : MState P)
      (batch_size : ℕ) (seed : ℤ) (test_dataset : List (α × ℕ)) (s : Sys α P)
      (rng : RngState),
      loaderExamples (dataLoader test_dataset batch_size 42) ≠ 0 →
      (test_model predict cuda m batch_size seed test_dataset s rng).1 =
        Except.ok [("accuracy",
          (loaderCorrect predict m.params (dataLoader test_dataset batch_size 42) : ℚ) /
            (loaderExamples (dataLoader test_dataset batch_size 42) : ℚ))] ∧
      (test_model predict cuda m batch_size seed test_dataset s rng).2.1 =
        { params := m.params, training := true } ∧
      (test_model predict cuda m batch_size seed test_dataset s rng).2.2.1.trace =
        Event.evalCall false false :: s.trace ∧
      (test_model predict cuda m batch_size seed test_dataset s rng).2.2.2 =
        set_seed cuda seed rng := by
  intro α P predict cuda m batch_size seed test_dataset s rng h
  simp [test_model_eq, h]

/-- C5 witness: testing the synthetic model on the ten-example split. -/
theorem C5_witness :
    loaderExamples (dataLoader exValidDs 10 42) ≠ 0 ∧
    ((test_model exPredict false { params := 1, training := true } 10 7 exValidDs exSys
        exRng).1 =
      Except.ok [("accuracy",
        (loaderCorrect exPredict (MState.params { params := (1:ℕ), training := true })
            (dataLoader exValidDs 10 42) : ℚ) /
          (loaderExamples (dataLoader exValidDs 10 42) : ℚ))] ∧
     (test_model exPredict false { params := 1, training := true } 10 7 exValidDs exSys
        exRng).2.1 = { params := (1:ℕ), training := true } ∧
     (test_model exPredict false { params := 1, training := true } 10 7 exValidDs exSys
        exRng).2.2.1.trace = Event.evalCall false false :: exSys.trace ∧
     (test_model exPredict false { params := 1, training := true } 10 7 exValidDs exSys
        exRng).2.2.2 = set_seed false 7 exRng) :=
  ⟨by decide,
   C5_tester ℕ ℕ exPredict false { params := 1, training := true } 10 7 exValidDs exSys exRng
     (by decide)⟩

/-- C9: an unsupported dataset name makes the entry point fail with the
"unimplemented" condition before touching the world state, and a
non-positive epoch count makes the trainer fail with the assertion error,
also leaving the state untouched: no checkpoint is written and no training
step is taken in either case, and the error is returned to the caller. -/
theorem C9_config_errors :
    (∀ (α P : Type) (predict : P → α → List ℚ) (lossOf : P → Batch α → ℚ)
        (step : P → Batch α → P) (cuda : Bool) (p0 : P) (tds vds teds : List (α × ℕ))
        (args : Args) (s : Sys α P) (rng : RngState),
        args.dataset ≠ "FFHQ-Aging" →
        main predict lossOf step cuda p0 tds vds teds args s rng =
          (Except.error Err.notImplementedError, s, set_seed cuda args.seed rng)) ∧
    (∀ (α P : Type) (predict : P → α → List ℚ) (lossOf : P → Batch α → ℚ)
        (step : P → Batch α → P) (m : MState P) (lr : ℚ) (batch_size : ℕ) (epochs : ℤ)
        (checkpoint_name : String) (tds vds : List (α × ℕ)) (s : Sys α P),
        epochs ≤ 0 →
        train_model predict lossOf step m lr batch_size epochs checkpoint_name tds vds s =
          (Except.error Err.assertionError, s)) :=
  ⟨fun _ _ predict lossOf step cuda p0 tds vds teds args s rng h =>
    main_notimpl predict lossOf step cuda p0 tds vds teds args s rng h,
   fun _ _ predict lossOf step m lr batch_size epochs checkpoint_name tds vds s h =>
    train_model_assert predict lossOf step m lr batch_size epochs checkpoint_name tds vds s h⟩

/-- C9 witness: the dataset name "MNIST" and the epoch count 0. -/
theorem C9_witness :
    ({ exArgs with dataset := "MNIST" } : Args).dataset ≠ "FFHQ-Aging" ∧
    main exPredict exLoss exStep false 0 exTrainDs exValidDs exValidDs
        { exArgs with dataset := "MNIST" } exSys exRng =
      (Except.error Err.notImplementedError, exSys,
        set_seed false ({ exArgs with dataset := "MNIST" } : Args).seed exRng) ∧
    ((0 : ℤ) ≤ 0) ∧
    train_model exPredict exLoss exStep { params := 0, training := true } 1 10 0 "ck"
        exTrainDs exValidDs exSys =
      (Except.error Err.assertionError, exSys) :=
  ⟨by decide,
   (C9_config_errors.1 ℕ ℕ exPredict exLoss exStep false 0 exTrainDs exValidDs exValidDs
     { exArgs with dataset := "MNIST" } exSys exRng (by decide)),
   by decide,
   (C9_config_errors.2 ℕ ℕ exPredict exLoss exStep { params := 0, training := true } 1 10 0 "ck"
     exTrainDs exValidDs exSys (by decide))⟩

/-- C1: the trainer starts from a running best validation accuracy of 0 and
saves a checkpoint exactly when an epoch's validation accuracy strictly
exceeds the running best, updating it; hence the accuracies that trigger a
save form a strictly increasing sequence, and replaying the per-epoch
validation accuracies [0.5, 0.4, 0.6, 0.6, 0.7] (the synthetic run `exRun`,
whose logged "Accuracy/validation" tensorboard series reads, newest first,
7/10, 3/5, 3/5, 2/5, 1/2) yields exactly 3 saves,
triggered by 0.5, 0.6 and 0.7 — the 0.4 and the repeated 0.6 do not save. -/
theorem C1_model_selection :
    (∀ (α P : Type) (predict : P → α → List ℚ) (lossOf : P → Batch α → ℚ)
        (step : P → Batch α → P) (m : MState P) (lr : ℚ) (batch_size : ℕ) (epochs : ℤ)
        (checkpoint_name : String) (tds vds : List (α × ℕ)) (s : Sys α P),
        s.savedAccs = [] →
        List.Chain' (· < ·)
          (train_model predict lossOf step m lr batch_size epochs checkpoint_name
            tds vds s).2.savedAccs) ∧
    exRun.2.tboard =
      [("Accuracy/validation", 7/10), ("Accuracy/train", 1), ("Loss/train", 0),
       ("Accuracy/validation", 3/5), ("Accuracy/train", 1), ("Loss/train", 0),
       ("Accuracy/validation", 3/5), ("Accuracy/train", 1), ("Loss/train", 0),
       ("Accuracy/validation", 2/5), ("Accuracy/train", 1), ("Loss/train", 0),
       ("Accuracy/validation", 1/2), ("Accuracy/train", 1), ("Loss/train", 0)] ∧
    exRun.2.savedAccs = [1/2, 3/5, 7/10] ∧
    countSaves exRun.2.trace = 3 := by
  refine ⟨?_, ?_, ?_, ?_⟩
  · intro α P predict lossOf step m lr batch_size epochs checkpoint_name tds vds s hs
    by_cases h0 : epochs ≤ 0
    · rw [train_model_assert predict lossOf step m lr batch_size epochs checkpoint_name
        tds vds s h0]
      simp [hs]
    · rw [train_model_snd predict lossOf step m lr batch_size epochs checkpoint_name
        tds vds s h0]
      exact (trainLoop_saved predict lossOf step (dataLoader tds batch_size 42)
        (dataLoader vds batch_size 42) checkpoint_name epochs.toNat m 0
        (trainInitSys tds vds batch_size s)
        (by simp [trainInitSys, hs]) (by simp [trainInitSys, hs])).1
  · norm_num [exRun, train_model, trainLoop, epochStep, evaluate_model, runBatches, save_model,
      lookupFile, load_model, dataLoader, chunkList, chunkGo, batchCorrect, loaderExamples,
      loaderCorrect, argmaxIdx, argmaxGo, exPredict, exCorr, exStep, exLoss, exTrainDs,
      exValidDs, exSys, List.range, List.range.loop]
  · norm_num [exRun, train_model, trainLoop, epochStep, evaluate_model, runBatches, save_model,
      lookupFile, load_model, dataLoader, chunkList, chunkGo, batchCorrect, loaderExamples,
      loaderCorrect, argmaxIdx, argmaxGo, exPredict, exCorr, exStep, exLoss, exTrainDs,
      exValidDs, exSys, List.range, List.range.loop]
  · norm_num [exRun, train_model, trainLoop, epochStep, evaluate_model, runBatches, save_model,
      lookupFile, load_model, dataLoader, chunkList, chunkGo, batchCorrect, loaderExamples,
      loaderCorrect, argmaxIdx, argmaxGo, exPredict, exCorr, exStep, exLoss, exTrainDs,
      exValidDs, exSys, List.range, List.range.loop, countSaves, isSaveCk, List.countP_cons]

/-- C1 witness: the strict-increase statement applied to the synthetic
replay run. -/
theorem C1_witness :
    List.Chain' (· < ·)
      (train_model exPredict exLoss exStep { params := 0, training := true } 1 10 5 "ck"
        exTrainDs exValidDs exSys).2.savedAccs :=
  C1_model_selection.1 ℕ ℕ exPredict exLoss exStep { params := 0, training := true } 1 10 5 "ck"
    exTrainDs exValidDs exSys rfl

/-- C2: for every epoch count E ≥ 1 (with nonempty splits, positive batch
size and a fresh checkpoint store), after the E epochs the trainer reloads
the checkpoint file into the model and returns it: when at least one save
happened the result is the model carrying exactly the stored parameters (in
training mode); when no epoch ever saved (validation accuracy never exceeded
0) the final reload fails with the "not found" condition. -/
theorem C2_termination_reload :
    ∀ (α P : Type) (predict : P → α → List ℚ) (lossOf : P → Batch α → ℚ)
      (step : P → Batch α → P) (m : MState P) (lr : ℚ) (batch_size : ℕ) (E : ℕ)
      (checkpoint_name : String) (tds vds : List (α × ℕ)) (s : Sys α P),
      1 ≤ E → 1 ≤ batch_size → tds ≠ [] → vds ≠ [] →
      lookupFile s.files checkpoint_name = none → s.savedAccs = [] →
      ((train_model predict lossOf step m lr batch_size (E : ℤ) checkpoint_name tds vds
          s).2.savedAccs = [] →
        (train_model predict lossOf step m lr batch_size (E : ℤ) checkpoint_name tds vds
          s).1 = Except.error Err.fileNotFound) ∧
      ((train_model predict lossOf step m lr batch_size (E : ℤ) checkpoint_name tds vds
          s).2.savedAccs ≠ [] →
        ∃ q, lookupFile (train_model predict lossOf step m lr batch_size (E : ℤ)
            checkpoint_name tds vds s).2.files checkpoint_name = some q ∧
          (train_model predict lossOf step m lr batch_size (E : ℤ) checkpoint_name tds vds
            s).1 = Except.ok { params := q, training := true }) := by
  intro α P predict lossOf step m lr batch_size E checkpoint_name tds vds s
    hE hbs htds hvds hfresh hsa
  have h0 : ¬ ((E : ℤ) ≤ 0) := by omega
  have hTl := loaderExamples_ne_zero tds batch_size 42 hbs htds
  have hVl := loaderExamples_ne_zero vds batch_size 42 hbs hvds
  have htoNat : ((E : ℤ)).toNat = E := Int.toNat_natCast E
  have hstats := trainLoop_stats predict lossOf step (dataLoader tds batch_size 42)
    (dataLoader vds batch_size 42) checkpoint_name hTl hVl ((E : ℤ)).toNat m 0
    (trainInitSys tds vds batch_size s)
  have hfiles := trainLoop_files predict lossOf step (dataLoader tds batch_size 42)
    (dataLoader vds batch_size 42) checkpoint_name ((E : ℤ)).toNat m 0
    (trainInitSys tds vds batch_size s) (by simp [trainInitSys, hfresh, hsa])
  rcases hLoop : trainLoop predict lossOf step (dataLoader tds batch_size 42)
      (dataLoader vds batch_size 42) checkpoint_name ((E : ℤ)).toNat m 0
      (trainInitSys tds vds batch_size s) with ⟨r, mF, bF, sF⟩
  rw [hLoop] at hstats hfiles
  obtain ⟨hr, -, -, -, htrain⟩ := hstats
  have hr2 : r = Except.ok () := hr
  subst hr2
  have hmf : mF.training = true := htrain (by rw [htoNat]; exact hE)
  rw [train_model_eq predict lossOf step m lr batch_size (E : ℤ) checkpoint_name tds vds s h0,
    hLoop]
  dsimp only
  cases hL : lookupFile sF.files checkpoint_name with
  | none =>
    have hLoad : load_model checkpoint_name sF = (Except.error Err.fileNotFound : Except Err P) := by
      unfold load_model
      rw [hL]
    rw [hLoad]
    dsimp only
    constructor
    · intro _
      rfl
    · intro hne
      exact absurd (hfiles.2 hne) (by simp [hL])
  | some q =>
    have hLoad : load_model checkpoint_name sF = Except.ok q := by
      unfold load_model
      rw [hL]
    rw [hLoad]
    dsimp only
    constructor
    · intro hempty
      exact absurd (hfiles.1 (by simp [hL])) (by simp_all)
    · intro _
      refine ⟨q, hL, ?_⟩
      show Except.ok (MState.mk q mF.training) = Except.ok (MState.mk q true)
      rw [hmf]

/-- C2 witness: a three-epoch run whose validation accuracy is 0 every epoch
saves nothing and ends in the "not found" failure. -/
theorem C2_witness :
    1 ≤ 3 ∧ 1 ≤ 10 ∧ exTrainDs ≠ [] ∧ exValidDs ≠ [] ∧
    lookupFile exSys.files "ck" = none ∧ exSys.savedAccs = [] ∧
    (train_model zeroPredict exLoss exStep { params := 0, training := true } 1 10
      ((3 : ℕ) : ℤ) "ck" exTrainDs exValidDs exSys).1 = Except.error Err.fileNotFound := by
  refine ⟨by norm_num, by norm_num, by decide, by decide, rfl, rfl, ?_⟩
  refine (C2_termination_reload ℕ ℕ zeroPredict exLoss exStep
      { params := 0, training := true } 1 10 3 "ck" exTrainDs exValidDs exSys
      (by norm_num) (by norm_num) (by decide) (by decide) rfl rfl).1 ?_
  norm_num [train_model, trainLoop, epochStep, evaluate_model, runBatches, save_model,
    lookupFile, load_model, dataLoader, chunkList, chunkGo, batchCorrect, loaderExamples,
    loaderCorrect, argmaxIdx, argmaxGo, zeroPredict, exStep, exLoss, exTrainDs,
    exValidDs, exSys, List.range, List.range.loop]

/-- C7: with nonempty splits and positive batch size, one call to the
trainer records exactly 2·E evaluator calls over E epochs, and one call to
the tester records exactly one more. -/
theorem C7_eval_counts :
    (∀ (α P : Type) (predict : P → α → List ℚ) (lossOf : P → Batch α → ℚ)
        (step : P → Batch α → P) (m : MState P) (lr : ℚ) (batch_size : ℕ) (E : ℕ)
        (checkpoint_name : String) (tds vds : List (α × ℕ)) (s : Sys α P),
        1 ≤ E → 1 ≤ batch_size → tds ≠ [] → vds ≠ [] →
        countEvals (train_model predict lossOf step m lr batch_size (E : ℤ) checkpoint_name
          tds vds s).2.trace = countEvals s.trace + 2 * E) ∧
    (∀ (α P : Type) (predict : P → α → List ℚ) (cuda : Bool) (m : MState P)
        (batch_size : ℕ) (seed : ℤ) (test_dataset : List (α × ℕ)) (s : Sys α P)
        (rng : RngState),
        countEvals (test_model predict cuda m batch_size seed test_dataset s
          rng).2.2.1.trace = countEvals s.trace + 1) := by
  constructor
  · intro α P predict lossOf step m lr batch_size E checkpoint_name tds vds s hE hbs htds hvds
    have h0 : ¬ ((E : ℤ) ≤ 0) := by omega
    have hTl := loaderExamples_ne_zero tds batch_size 42 hbs htds
    have hVl := loaderExamples_ne_zero vds batch_size 42 hbs hvds
    rw [train_model_snd predict lossOf step m lr batch_size (E : ℤ) checkpoint_name tds vds
      s h0]
    rw [(trainLoop_stats predict lossOf step (dataLoader tds batch_size 42)
      (dataLoader vds batch_size 42) checkpoint_name hTl hVl ((E : ℤ)).toNat m 0
      (trainInitSys tds vds batch_size s)).2.1]
    simp [trainInitSys, Int.toNat_natCast]
  · intro α P predict cuda m batch_size seed test_dataset s rng
    simp [test_model_eq, countEvals, List.countP_cons, isEvalCall]

/-- C7 witness: the five-epoch synthetic run records exactly ten evaluator
calls. -/
theorem C7_witness :
    1 ≤ 5 ∧ 1 ≤ 10 ∧ exTrainDs ≠ [] ∧ exValidDs ≠ [] ∧
    countEvals (train_model exPredict exLoss exStep { params := 0, training := true } 1 10
      ((5 : ℕ) : ℤ) "ck" exTrainDs exValidDs exSys).2.trace = countEvals exSys.trace + 2 * 5 :=
  ⟨by norm_num, by norm_num, by decide, by decide,
   C7_eval_counts.1 ℕ ℕ exPredict exLoss exStep { params := 0, training := true } 1 10 5 "ck"
     exTrainDs exValidDs exSys (by norm_num) (by norm_num) (by decide) (by decide)⟩

/-- C8: the evaluator hands the model object back exactly as received (no
parameter update), and every evaluator call the trainer or the tester makes
happens in eval mode with autograd disabled: the count of evaluator calls
violating that (non-eval mode or autograd on) never grows. -/
theorem C8_eval_frame :
    (∀ (α P : Type) (predict : P → α → List ℚ) (m : MState P) (loader : List (Batch α))
        (s : Sys α P), (evaluate_model predict m loader s).2.1 = m) ∧
    (∀ (α P : Type) (predict : P → α → List ℚ) (lossOf : P → Batch α → ℚ)
        (step : P → Batch α → P) (m : MState P) (lr : ℚ) (batch_size : ℕ) (epochs : ℤ)
        (checkpoint_name : String) (tds vds : List (α × ℕ)) (s : Sys α P),
        badEvals (train_model predict lossOf step m lr batch_size epochs checkpoint_name
          tds vds s).2.trace = badEvals s.trace) ∧
    (∀ (α P : Type) (predict : P → α → List ℚ) (cuda : Bool) (m : MState P)
        (batch_size : ℕ) (seed : ℤ) (test_dataset : List (α × ℕ)) (s : Sys α P)
        (rng : RngState),
        badEvals (test_model predict cuda m batch_size seed test_dataset s
          rng).2.2.1.trace = badEvals s.trace) := by
  refine ⟨?_, ?_, ?_⟩
  · intro α P predict m loader s
    rw [evaluate_model_eq]
  · intro α P predict lossOf step m lr batch_size epochs checkpoint_name tds vds s
    by_cases h0 : epochs ≤ 0
    · rw [train_model_assert predict lossOf step m lr batch_size epochs checkpoint_name
        tds vds s h0]
    · rw [train_model_snd predict lossOf step m lr batch_size epochs checkpoint_name tds vds
        s h0]
      rw [(trainLoop_frame predict lossOf step (dataLoader tds batch_size 42)
        (dataLoader vds batch_size 42) checkpoint_name epochs.toNat m 0
        (trainInitSys tds vds batch_size s)).1]
      rfl
  · intro α P predict cuda m batch_size seed test_dataset s rng
    simp [test_model_eq, badEvals, List.countP_cons, isBadEval]

lemma main_load {α P : Type} (predict : P → α → List ℚ) (lossOf : P → Batch α → ℚ)
    (step : P → Batch α → P) (cuda : Bool) (p0 : P) (tds vds teds : List (α × ℕ))
    (args : Args) (s : Sys α P) (rng : RngState) (q : P)
    (hds : args.dataset = "FFHQ-Aging")
    (hck : lookupFile s.files args.checkpoint_name = some q) :
    main predict lossOf step cuda p0 tds vds teds args s rng =
      ((test_model predict cuda { params := q, training := true } args.batch_size args.seed
          teds s (set_seed cuda args.seed rng)).1,
       (test_model predict cuda { params := q, training := true } args.batch_size args.seed
          teds s (set_seed cuda args.seed rng)).2.2.1,
       (test_model predict cuda { params := q, training := true } args.batch_size args.seed
          teds s (set_seed cuda args.seed rng)).2.2.2) := by
  unfold main load_model
  rw [if_pos hds, hck]
  dsimp only
  rcases hT : test_model predict cuda { params := q, training := true } args.batch_size
      args.seed teds s (set_seed cuda args.seed rng) with ⟨rt, m2, s3, rng2⟩
  rfl

lemma main_train {α P : Type} (predict : P → α → List ℚ) (lossOf : P → Batch α → ℚ)
    (step : P → Batch α → P) (cuda : Bool) (p0 : P) (tds vds teds : List (α × ℕ))
    (args : Args) (s : Sys α P) (rng : RngState)
    (hds : args.dataset = "FFHQ-Aging")
    (hck : lookupFile s.files args.checkpoint_name = none) :
    main predict lossOf step cuda p0 tds vds teds args s rng =
      (match train_model predict lossOf step { params := p0, training := true } args.lr
          args.batch_size args.epochs args.checkpoint_name tds vds s with
       | (Except.error e, s2) => (Except.error e, s2, set_seed cuda args.seed rng)
       | (Except.ok m1, s2) =>
          match test_model predict cuda m1 args.batch_size args.seed teds s2
              (set_seed cuda args.seed rng) with
          | (rt, _, s3, rng2) => (rt, s3, rng2)) := by
  unfold main
  rw [if_pos hds, hck]
  rfl

lemma train_model_loaders {α P : Type} (predict : P → α → List ℚ) (lossOf : P → Batch α → ℚ)
    (step : P → Batch α → P) (m : MState P) (lr : ℚ) (batch_size : ℕ) (epochs : ℤ)
    (checkpoint_name : String) (tds vds : List (α × ℕ)) (s : Sys α P)
    (h42 : ∀ pr ∈ s.loadersMade, pr.2 = 42) :
    ∀ pr ∈ (train_model predict lossOf step m lr batch_size epochs checkpoint_name tds vds
      s).2.loadersMade, pr.2 = 42 := by
  by_cases h0 : epochs ≤ 0
  · rw [train_model_assert predict lossOf step m lr batch_size epochs checkpoint_name
      tds vds s h0]
    exact h42
  · rw [train_model_snd predict lossOf step m lr batch_size epochs checkpoint_name tds vds
      s h0]
    rw [(trainLoop_frame predict lossOf step (dataLoader tds batch_size 42)
      (dataLoader vds batch_size 42) checkpoint_name epochs.toNat m 0
      (trainInitSys tds vds batch_size s)).2]
    intro pr hpr
    simp only [trainInitSys] at hpr
    rcases List.mem_append.1 hpr with h | h
    · exact h42 pr h
    · simp only [List.mem_cons, List.mem_singleton] at h
      rcases h with h | h | h
      · rw [h]
      · rw [h]
      · exact absurd h (List.not_mem_nil pr)

/-- C6: with the supported dataset name, the entry point loads the existing
checkpoint instead of training whenever a file of the configured name is on
disk (the tester then runs exactly once on the loaded parameters and its
record is returned, with no optimizer step ever taken), it does train when no
such file exists (at least one optimizer step is recorded), and whenever that
training returns a model the run finishes by calling the tester once on it
and returning the tester's record. -/
theorem C6_entry_control_flow :
    ∀ (α P : Type) (predict : P → α → List ℚ) (lossOf : P → Batch α → ℚ)
      (step : P → Batch α → P) (cuda : Bool) (p0 : P) (tds vds teds : List (α × ℕ))
      (args : Args) (s : Sys α P) (rng : RngState),
      args.dataset = "FFHQ-Aging" →
      ((∀ q : P, lookupFile s.files args.checkpoint_name = some q →
         main predict lossOf step cuda p0 tds vds teds args s rng =
           ((test_model predict cuda { params := q, training := true } args.batch_size
               args.seed teds s (set_seed cuda args.seed rng)).1,
            (test_model predict cuda { params := q, training := true } args.batch_size
               args.seed teds s (set_seed cuda args.seed rng)).2.2.1,
            (test_model predict cuda { params := q, training := true } args.batch_size
               args.seed teds s (set_seed cuda args.seed rng)).2.2.2) ∧
         countOpt (main predict lossOf step cuda p0 tds vds teds args s rng).2.1.trace =
           countOpt s.trace) ∧
       (lookupFile s.files args.checkpoint_name = none →
         ∀ E : ℕ, args.epochs = (E : ℤ) → 1 ≤ E → 1 ≤ args.batch_size →
           tds ≠ [] → vds ≠ [] →
           countOpt s.trace + 1 ≤
             countOpt (main predict lossOf step cuda p0 tds vds teds args s rng).2.1.trace) ∧
       (lookupFile s.files args.checkpoint_name = none →
         ∀ (m1 : MState P) (s2 : Sys α P),
           train_model predict lossOf step { params := p0, training := true } args.lr
             args.batch_size args.epochs args.checkpoint_name tds vds s =
             (Except.ok m1, s2) →
           main predict lossOf step cuda p0 tds vds teds args s rng =
             ((test_model predict cuda m1 args.batch_size args.seed teds s2
                 (set_seed cuda args.seed rng)).1,
              (test_model predict cuda m1 args.batch_size args.seed teds s2
                 (set_seed cuda args.seed rng)).2.2.1,
              (test_model predict cuda m1 args.batch_size args.seed teds s2
                 (set_seed cuda args.seed rng)).2.2.2))) := by
  intro α P predict lossOf step cuda p0 tds vds teds args s rng hds
  refine ⟨?_, ?_, ?_⟩
  · intro q hck
    have hmain := main_load predict lossOf step cuda p0 tds vds teds args s rng q hds hck
    refine ⟨hmain, ?_⟩
    rw [hmain]
    simp [test_model_eq, countOpt, List.countP_cons, isOptStep]
  · intro hck E hEq hE hbs htds hvds
    have h0 : ¬ args.epochs ≤ 0 := by rw [hEq]; omega
    have hTl := loaderExamples_ne_zero tds args.batch_size 42 hbs htds
    have hVl := loaderExamples_ne_zero vds args.batch_size 42 hbs hvds
    have hcount : countOpt (train_model predict lossOf step { params := p0, training := true }
        args.lr args.batch_size args.epochs args.checkpoint_name tds vds s).2.trace =
        countOpt s.trace + args.epochs.toNat * (dataLoader tds args.batch_size 42).length := by
      rw [train_model_snd predict lossOf step { params := p0, training := true } args.lr
        args.batch_size args.epochs args.checkpoint_name tds vds s h0]
      rw [(trainLoop_stats predict lossOf step (dataLoader tds args.batch_size 42)
        (dataLoader vds args.batch_size 42) args.checkpoint_name hTl hVl args.epochs.toNat
        { params := p0, training := true } 0 (trainInitSys tds vds args.batch_size s)).2.2.1]
      rfl
    have hlen := dataLoader_length_pos tds args.batch_size 42 htds
    have hEn : args.epochs.toNat = E := by rw [hEq]; exact Int.toNat_natCast E
    have hprod : 1 ≤ args.epochs.toNat * (dataLoader tds args.batch_size 42).length := by
      rw [hEn]
      calc 1 = 1 * 1 := by norm_num
      _ ≤ E * (dataLoader tds args.batch_size 42).length := Nat.mul_le_mul hE hlen
    rw [main_train predict lossOf step cuda p0 tds vds teds args s rng hds hck]
    rcases hT : train_model predict lossOf step { params := p0, training := true } args.lr
        args.batch_size args.epochs args.checkpoint_name tds vds s with ⟨r, s2⟩
    rw [hT] at hcount
    cases r with
    | error e =>
      dsimp only
      dsimp only at hcount
      simp only [countOpt] at hcount ⊢
      omega
    | ok m1 =>
      dsimp only
      rw [test_model_eq]
      dsimp only
      dsimp only at hcount
      simp only [countOpt, List.countP_cons, isOptStep] at hcount ⊢
      simp only [Bool.false_eq_true, if_false]
      omega
  · intro hck m1 s2 hT
    rw [main_train predict lossOf step cuda p0 tds vds teds args s rng hds hck, hT]

/-- C6 witness: the training branch of the synthetic entry-point run takes
at least one optimizer step. -/
theorem C6_witness :
    exArgs.dataset = "FFHQ-Aging" ∧
    lookupFile exSys.files exArgs.checkpoint_name = none ∧
    exArgs.epochs = ((5 : ℕ) : ℤ) ∧ 1 ≤ 5 ∧ 1 ≤ exArgs.batch_size ∧
    exTrainDs ≠ [] ∧ exValidDs ≠ [] ∧
    countOpt exSys.trace + 1 ≤
      countOpt (main exPredict exLoss exStep false 0 exTrainDs exValidDs exValidDs exArgs
        exSys exRng).2.1.trace :=
  ⟨rfl, rfl, rfl, by norm_num, by norm_num [exArgs], by decide, by decide,
   (C6_entry_control_flow ℕ ℕ exPredict exLoss exStep false 0 exTrainDs exValidDs exValidDs
     exArgs exSys exRng rfl).2.1 rfl 5 rfl (by norm_num) (by norm_num [exArgs]) (by decide)
     (by decide)⟩

/-- C10: the batch order the three loaders present does not depend on the
user-supplied seed: two entry-point runs differing only in the seed argument
produce the same result and the same world state (in particular the same
recorded loader batch sequences); every loader a run constructs carries the
fixed generator seed 42; and a sequential loader's batch order does not
depend on the generator seed at all. -/
theorem C10_loader_seed_independence :
    (∀ (α P : Type) (predict : P → α → List ℚ) (lossOf : P → Batch α → ℚ)
        (step : P → Batch α → P) (cuda : Bool) (p0 : P) (tds vds teds : List (α × ℕ))
        (args : Args) (s : Sys α P) (rng : RngState) (seed1 seed2 : ℤ),
        (main predict lossOf step cuda p0 tds vds teds { args with seed := seed1 } s rng).1 =
          (main predict lossOf step cuda p0 tds vds teds { args with seed := seed2 }
            s rng).1 ∧
        (main predict lossOf step cuda p0 tds vds teds { args with seed := seed1 }
            s rng).2.1 =
          (main predict lossOf step cuda p0 tds vds teds { args with seed := seed2 }
            s rng).2.1) ∧
    (∀ (α : Type) (ds : List (α × ℕ)) (bs g : ℕ), dataLoader ds bs g = dataLoader ds bs 42) ∧
    (∀ (α P : Type) (predict : P → α → List ℚ) (lossOf : P → Batch α → ℚ)
        (step : P → Batch α → P) (cuda : Bool) (p0 : P) (tds vds teds : List (α × ℕ))
        (args : Args) (s : Sys α P) (rng : RngState),
        (∀ pr ∈ s.loadersMade, pr.2 = 42) →
        ∀ pr ∈ (main predict lossOf step cuda p0 tds vds teds args s rng).2.1.loadersMade,
          pr.2 = 42) := by
  refine ⟨?_, ?_, ?_⟩
  · intro α P predict lossOf step cuda p0 tds vds teds args s rng seed1 seed2
    by_cases hds : args.dataset = "FFHQ-Aging"
    · cases hck : lookupFile s.files args.checkpoint_name with
      | some q =>
        rw [main_load predict lossOf step cuda p0 tds vds teds { args with seed := seed1 }
            s rng q hds hck,
          main_load predict lossOf step cuda p0 tds vds teds { args with seed := seed2 }
            s rng q hds hck]
        constructor <;> simp [test_model_eq]
      | none =>
        rw [main_train predict lossOf step cuda p0 tds vds teds { args with seed := seed1 }
            s rng hds hck,
          main_train predict lossOf step cuda p0 tds vds teds { args with seed := seed2 }
            s rng hds hck]
        dsimp only
        rcases hT : train_model predict lossOf step { params := p0, training := true } args.lr
            args.batch_size args.epochs args.checkpoint_name tds vds s with ⟨r, s2⟩
        cases r with
        | error e => exact ⟨rfl, rfl⟩
        | ok m1 =>
          dsimp only
          constructor <;> simp [test_model_eq]
    · rw [main_notimpl predict lossOf step cuda p0 tds vds teds { args with seed := seed1 }
          s rng hds,
        main_notimpl predict lossOf step cuda p0 tds vds teds { args with seed := seed2 }
          s rng hds]
      exact ⟨rfl, rfl⟩
  · intro α ds bs g
    rfl
  · intro α P predict lossOf step cuda p0 tds vds teds args s rng h42
    by_cases hds : args.dataset = "FFHQ-Aging"
    · cases hck : lookupFile s.files args.checkpoint_name with
      | some q =>
        rw [main_load predict lossOf step cuda p0 tds vds teds args s rng q hds hck]
        rw [test_model_eq]
        intro pr hpr
        dsimp only at hpr
        rcases List.mem_append.1 hpr with h | h
        · exact h42 pr h
        · simp only [List.mem_singleton] at h
          rw [h]
      | none =>
        rw [main_train predict lossOf step cuda p0 tds vds teds args s rng hds hck]
        rcases hT : train_model predict lossOf step { params := p0, training := true } args.lr
            args.batch_size args.epochs args.checkpoint_name tds vds s with ⟨r, s2⟩
        have hTrain := train_model_loaders predict lossOf step
          { params := p0, training := true } args.lr args.batch_size args.epochs
          args.checkpoint_name tds vds s h42
        rw [hT] at hTrain
        cases r with
        | error e => exact hTrain
        | ok m1 =>
          dsimp only
          rw [test_model_eq]
          intro pr hpr
          dsimp only at hpr
          rcases List.mem_append.1 hpr with h | h
          · exact hTrain pr h
          · simp only [List.mem_singleton] at h
            rw [h]
    · rw [main_notimpl predict lossOf step cuda p0 tds vds teds args s rng hds]
      exact h42

/-- C10 witness: the synthetic entry-point run started with an empty
loader record only constructs loaders carrying generator seed 42. -/
theorem C10_witness :
    (∀ pr ∈ exSys.loadersMade, pr.2 = 42) ∧
    (∀ pr ∈ (main exPredict exLoss exStep false 0 exTrainDs exValidDs exValidDs exArgs
        exSys exRng).2.1.loadersMade, pr.2 = 42) :=
  ⟨by simp [exSys],
   C10_loader_seed_independence.2.2 ℕ ℕ exPredict exLoss exStep false 0 exTrainDs exValidDs
     exValidDs exArgs exSys exRng (by simp [exSys])⟩

end TrainClassifier
